import Mathlib

/-!
Shallow embedding of `rag_server.py` (FredNov/rag-server).

The repository is an MCP tool server exposing three operations over a
Supabase vector store and an OpenAI embedding provider:
  * `search_documents` (tool `search_note`)  — rag_server.py lines 138–197
  * `add_note`                               — rag_server.py lines 199–251
  * `delete_note`                            — rag_server.py lines 253–280

External collaborators (the OpenAI embedding endpoint, the Supabase
store, `hashlib.sha256`, `uuid.uuid4`, `datetime.now`) are opaque to the
engine; they are modelled as explicit parameters: each operation takes
the responses the collaborators would return and also produces the list
of requests (`Action`s) it issues, in order.  Python floats are modelled
as exact rationals (`Rat`); Python ints as `Int`; JSON-like metadata
dicts as insertion-ordered association lists with unique keys.

One behaviour of the source deserves emphasis: line 204 `await`s the
return value of the synchronous OpenAI client's `embeddings.create`
call.  The request to the provider is made, but on a successful
response the `await` raises `TypeError` (the response object is not
awaitable), so the rest of `add_note` — metadata synthesis, the insert
into `"notes"`, the success return — is unreachable.  The embedding of
`add_note` reproduces this; the metadata-synthesis code itself
(lines 211–235) is embedded separately so its content can be specified.
-/

namespace RagServer

/-- A JSON-like value as it appears in a metadata dict
(`None`, `bool`, `int`, `float`, `str`, nested dict). -/
inductive Value where
  | null
  | bool (b : Bool)
  | int (n : Int)
  | rat (q : Rat)
  | str (s : String)
  | obj (entries : List (String × Value))

/-- A Python dict with string keys: an insertion-ordered association list.
Dicts built by the embedded code always have pairwise-distinct keys,
mirroring Python dict semantics. -/
abbrev Dict := List (String × Value)

/-- Dict lookup: the value at the first (in a well-formed dict, only)
occurrence of `key`, or `none` when the key is absent. -/
def Dict.get : Dict → String → Option Value
  | [], _ => none
  | (k, v) :: rest, key => if k = key then some v else Dict.get rest key

/-- Assignment `d[key] = v` on a Python dict: replace the value at an
existing key in place, otherwise append the new entry at the end. -/
def Dict.set : Dict → String → Value → Dict
  | [], key, v => [(key, v)]
  | (k, w) :: rest, key, v =>
    if k = key then (k, v) :: rest else (k, w) :: Dict.set rest key v

/-- Python `d.update(other)`: assign every entry of `other`, in order,
into `d` (caller wins on key conflicts). -/
def Dict.update (d other : Dict) : Dict :=
  other.foldl (fun acc p => Dict.set acc p.1 p.2) d

theorem Dict.get_set_self (d : Dict) (k : String) (v : Value) :
    (d.set k v).get k = some v := by
  induction d with
  | nil => simp [Dict.set, Dict.get]
  | cons p rest ih =>
    obtain ⟨k', w⟩ := p
    by_cases h : k' = k
    · simp [Dict.set, Dict.get, h]
    · simp [Dict.set, Dict.get, h, ih]

theorem Dict.get_set_ne (d : Dict) (k k' : String) (v : Value) (h : k ≠ k') :
    (d.set k v).get k' = d.get k' := by
  induction d with
  | nil => simp [Dict.set, Dict.get, h]
  | cons p rest ih =>
    obtain ⟨k₀, w⟩ := p
    by_cases h0 : k₀ = k
    · subst h0
      simp [Dict.set, Dict.get, h]
    · simp [Dict.set, Dict.get, h0, ih]

theorem Dict.get_eq_none_of_not_mem_keys (d : Dict) (k : String)
    (h : k ∉ d.map Prod.fst) : d.get k = none := by
  induction d with
  | nil => rfl
  | cons p rest ih =>
    obtain ⟨k', v⟩ := p
    simp only [List.map_cons, List.mem_cons, not_or] at h
    have hne : k' ≠ k := fun hh => h.1 hh.symm
    simp [Dict.get, hne, ih h.2]

theorem Dict.get_update_of_get_eq_none (d other : Dict) (k : String)
    (h : other.get k = none) : (d.update other).get k = d.get k := by
  induction other generalizing d with
  | nil => rfl
  | cons p rest ih =>
    obtain ⟨k', v⟩ := p
    by_cases hk : k' = k
    · simp [Dict.get, hk] at h
    · simp only [Dict.get, if_neg hk] at h
      show ((d.set k' v).update rest).get k = d.get k
      rw [ih _ h, Dict.get_set_ne _ _ _ _ hk]

theorem Dict.get_update_of_get_eq_some (d other : Dict) (k : String) (v : Value)
    (hnd : (other.map Prod.fst).Nodup) (h : other.get k = some v) :
    (d.update other).get k = some v := by
  induction other generalizing d with
  | nil => simp [Dict.get] at h
  | cons p rest ih =>
    obtain ⟨k', w⟩ := p
    simp only [List.map_cons, List.nodup_cons] at hnd
    by_cases hk : k' = k
    · subst hk
      simp [Dict.get] at h
      subst h
      show ((d.set k' w).update rest).get k' = some w
      have hrest : Dict.get rest k' = none :=
        Dict.get_eq_none_of_not_mem_keys rest k' hnd.1
      rw [Dict.get_update_of_get_eq_none _ _ _ hrest, Dict.get_set_self]
    · simp only [Dict.get, if_neg hk] at h
      exact ih (d.set k' w) hnd.2 h

/-! Parsing of string-encoded embeddings (`Document.from_supabase`,
rag_server.py lines 120–130).  The Python code runs
`data['embedding'].strip('[]')`, splits on `','` and applies `float` to
each piece; any `ValueError` makes the whole embedding `None`. -/

/-- Membership in the character set of Python `str.strip('[]')`. -/
def isBracketChar (c : Char) : Bool := c = '[' || c = ']'

/-- Python `s.strip(chars)`: drop leading and trailing characters that
satisfy `p`. -/
def stripChars (p : Char → Bool) (cs : List Char) : List Char :=
  ((cs.dropWhile p).reverse.dropWhile p).reverse

/-- Python `s.split(sep)` for a one-character separator: `""` splits to
`[""]`, and every separator occurrence opens a new piece. -/
def splitOnChar (sep : Char) : List Char → List (List Char)
  | [] => [[]]
  | c :: cs =>
    let r := splitOnChar sep cs
    if c = sep then [] :: r
    else
      match r with
      | [] => [[c]]
      | piece :: rest => (c :: piece) :: rest

/-- Numeric value of a string of decimal digits, most significant first. -/
def digitsVal (cs : List Char) : Nat :=
  cs.foldl (fun n c => 10 * n + (c.toNat - 48)) 0

/-- Python `float(s)` on a finite decimal literal, modelled exactly over
`Rat`: optional surrounding whitespace, optional sign, decimal mantissa
with optional fractional part, optional `e`/`E` exponent.  (The special
forms `inf`/`nan` and digit-group underscores are outside this model;
no claim involves them.)  `none` models a raised `ValueError`. -/
def pyFloat (cs0 : List Char) : Option Rat :=
  let cs := stripChars Char.isWhitespace cs0
  let (sgn, cs1) : Rat × List Char :=
    match cs with
    | '+' :: rest => (1, rest)
    | '-' :: rest => (-1, rest)
    | _ => (1, cs)
  let intPart := cs1.takeWhile Char.isDigit
  let rest1 := cs1.dropWhile Char.isDigit
  let (fracPart, rest2) : List Char × List Char :=
    match rest1 with
    | '.' :: r => (r.takeWhile Char.isDigit, r.dropWhile Char.isDigit)
    | _ => ([], rest1)
  if intPart.isEmpty && fracPart.isEmpty then none
  else
    let mantissa : Rat :=
      sgn * ((digitsVal intPart : Rat) + (digitsVal fracPart : Rat) / (10 : Rat) ^ fracPart.length)
    match rest2 with
    | [] => some mantissa
    | e :: r =>
      if e = 'e' || e = 'E' then
        let (esgnNeg, r2) : Bool × List Char :=
          match r with
          | '+' :: rr => (false, rr)
          | '-' :: rr => (true, rr)
          | _ => (false, r)
        let eds := r2.takeWhile Char.isDigit
        let r3 := r2.dropWhile Char.isDigit
        if eds.isEmpty || !r3.isEmpty then none
        else if esgnNeg then some (mantissa / (10 : Rat) ^ digitsVal eds)
        else some (mantissa * (10 : Rat) ^ digitsVal eds)
      else none

/-- Parse every piece as a float; the first failure (a raised
`ValueError` in the Python list comprehension) fails the whole list. -/
def parseAll : List (List Char) → Option (List Rat)
  | [] => some []
  | p :: ps =>
    match pyFloat p, parseAll ps with
    | some v, some vs => some (v :: vs)
    | _, _ => none

/-- The embedding-string conversion inside `Document.from_supabase`
(lines 124–129): strip `[`/`]`, split on `,`, parse every piece as a
float; one failing piece makes the result `none` (the caught
`ValueError`/`AttributeError` path sets the field to `None`). -/
def parseEmbedding (s : String) : Option (List Rat) :=
  parseAll (splitOnChar ',' (stripChars isBracketChar s.toList))

/-! Data model and the three tool operations. -/

/-- Startup configuration read from the environment (rag_server.py
lines 73–80); only the parts the operations consult are modelled. -/
structure Config where
  openaiModel : String
  documentsTable : String
  defaultSearchLimit : Int

/-- Value of the `embedding` key of a store-returned row: absent, a
string-encoded vector, or already a float list. -/
inductive EmbField where
  | absent
  | str (s : String)
  | vec (v : List Rat)

/-- A row of `response.data` as returned by the Supabase
`match_documents` RPC: the fields the engine reads.  `similarity` is
`none` when the row lacks a `similarity` key. -/
structure Row where
  id : Int
  content : String
  embedding : EmbField
  metadata : Option Dict
  similarity : Option Rat

/-- The pydantic `Document` model (lines 114–118).  It has no
`similarity` field: the extra `similarity` key of the processed row is
dropped on conversion, as pydantic ignores unknown keys. -/
structure Document where
  id : Int
  content : String
  embedding : Option (List Rat)
  metadata : Option Dict

/-- Lines 120–130: `Document.from_supabase`.  A string-valued
`embedding` is parsed (`none` on failure); a list-valued or absent one
is passed through to the pydantic model unchanged. -/
def Document.from_supabase (data : Row) : Document :=
  { id := data.id
    content := data.content
    embedding :=
      match data.embedding with
      | .absent => none
      | .vec v => some v
      | .str s => parseEmbedding s
    metadata := data.metadata }

/-- Lines 176–183: per-candidate similarity correction.
`distance = 1 - doc.get('similarity', 0)` then
`similarity = 1 - (distance / 2)`, written into a copy of the row. -/
def processRow (doc : Row) : Row :=
  let distance : Rat := 1 - doc.similarity.getD 0
  let similarity : Rat := 1 - (distance / 2)
  { doc with similarity := some similarity }

/-- The sort key of line 186: `x['similarity']` (always present after
processing; `getD 0` only totalizes the lookup). -/
def simKey (r : Row) : Rat := r.similarity.getD 0

/-- Line 186: `results.sort(key=lambda x: x['similarity'], reverse=True)`
— a stable sort, descending on the key. -/
def sortBySimilarityDesc (l : List Row) : List Row :=
  l.mergeSort fun a b => decide (simKey b ≤ simKey a)

/-- Lines 174–186: the processed, sorted candidate list (the local
variable `results` after the sort). -/
def searchRows (rows : List Row) : List Row :=
  sortBySimilarityDesc (rows.map processRow)

/-- A request issued to an external collaborator, in the order the
engine makes them. -/
inductive Action where
  | embed (model : String) (input : String)
  | rpc (fn : String) (query_embedding : List Rat) (match_count : Int)
  | insert (table : String) (content : String) (embedding : List Rat) (metadata : Dict)
  | delete (table : String) (id : String)

/-- Lines 138–197: the `search_note` tool.  Parameters `embedResp` and
`storeResp` stand for the embedding provider's and the store's answers;
the first component of the result is the request trace, the second the
returned value or the propagated exception.  The RPC is always
`match_documents` with an empty filter. -/
def search_documents (cfg : Config) (query : String) (limit : Int)
    (embedResp : Except String (List Rat))
    (storeResp : Except String (List Row)) :
    List Action × Except String (List Document) :=
  match embedResp with
  | .error e => ([.embed cfg.openaiModel query], .error e)
  | .ok query_embedding =>
    match storeResp with
    | .error e =>
      ([.embed cfg.openaiModel query, .rpc "match_documents" query_embedding limit], .error e)
    | .ok rows =>
      ([.embed cfg.openaiModel query, .rpc "match_documents" query_embedding limit],
       .ok ((searchRows rows).map Document.from_supabase))

/-- Results of the opaque library calls appearing in the
metadata-synthesis code of `add_note` (lines 211–231):
`hashlib.sha256(·.encode()).hexdigest()`, `str(uuid.uuid4())`, and the
three successive `datetime.now().isoformat()` readings.  That code is
unreachable at run time (see `add_note`); it is embedded so that its
content can be specified. -/
structure World where
  sha256hex : String → String
  uuid4 : String
  now1 : String
  now2 : String
  now3 : String

/-- Lines 211–231: the synthesized `default_metadata` dict, keys in
source order. -/
def default_metadata (w : World) (content : String) : Dict :=
  [("loc", .null),
   ("source", .str "from_chat"),
   ("file_id", .str w.uuid4),
   ("blobType", .str "text"),
   ("filename", .null),
   ("path", .null),
   ("directory", .null),
   ("file_extension", .null),
   ("file_size", .int content.length),
   ("file_hash", .str (w.sha256hex content)),
   ("content_length", .int content.length),
   ("is_truncated", .bool false),
   ("last_modified", .str w.now1),
   ("created_at", .str w.now2),
   ("processing_info", .obj
     [("model", .str "text-embedding-3-small"),
      ("processed_at", .str w.now3),
      ("embedding_dimension", .int 1536)])]

/-- Lines 233–235: `if metadata: default_metadata.update(metadata)` —
a Python truthiness test, so `None` and the empty dict both leave the
defaults untouched. -/
def mergedMetadata (w : World) (content : String) (metadata : Option Dict) : Dict :=
  match metadata with
  | none => default_metadata w content
  | some m =>
    if m.isEmpty then default_metadata w content
    else (default_metadata w content).update m

/-- The dict the success return of line 245 would produce.  No run of
`add_note` ever produces one: the `await` at line 204 raises first. -/
structure AddResult where
  id : Int
  content : String
  metadata : Dict

/-- Lines 199–251: the `add_note` tool.  Line 204 `await`s the return
value of the synchronous OpenAI client's `embeddings.create` call: the
embedding request is issued, with the literal model name of line 205; a
provider failure propagates through the `except` block; but on a
successful response the `await` itself raises `TypeError` (a
`CreateEmbeddingResponse` is not awaitable), which the `except` block
re-raises.  Lines 210–247 are therefore unreachable: `add_note` never
synthesizes metadata, never issues an insert, and never returns a
result. -/
def add_note (content : String) (metadata : Option Dict)
    (embedResp : Except String (List Rat)) :
    List Action × Except String AddResult :=
  match embedResp with
  | .error e => ([.embed "text-embedding-3-small" content], .error e)
  | .ok _ =>
    ([.embed "text-embedding-3-small" content],
     .error "TypeError: object CreateEmbeddingResponse can't be used in 'await' expression")

/-- The `note_id: Union[str, int]` parameter of `delete_note`. -/
inductive NoteId where
  | str (s : String)
  | int (n : Int)

/-- Line 268: `note_id_str = str(note_id)`. -/
def NoteId.toText : NoteId → String
  | .str s => s
  | .int n => toString n

/-- A row of `response.data` after a Supabase delete; only the row count
is read (line 271). -/
structure DeletedRow where
  id : Int

/-- Lines 253–280: the `delete_note` tool.  The target table is the
configured `DOCUMENTS_TABLE`; the result is `len(response.data) > 0`,
and a store failure propagates as the exception. -/
def delete_note (cfg : Config) (note_id : NoteId)
    (resp : Except String (List DeletedRow)) :
    List Action × Except String Bool :=
  let note_id_str := note_id.toText
  ([.delete cfg.documentsTable note_id_str],
   match resp with
   | .error e => .error e
   | .ok rows => .ok (decide (0 < rows.length)))

/-! Facts about the stable descending sort of line 186. -/

theorem rowLE_trans (a b c : Row) (h₁ : decide (simKey b ≤ simKey a) = true)
    (h₂ : decide (simKey c ≤ simKey b) = true) :
    decide (simKey c ≤ simKey a) = true := by
  simp only [decide_eq_true_eq] at *
  exact le_trans h₂ h₁

theorem rowLE_total (a b : Row) :
    (decide (simKey b ≤ simKey a) || decide (simKey a ≤ simKey b)) = true := by
  rcases le_total (simKey b) (simKey a) with h | h <;> simp [h]

theorem sortBySimilarityDesc_sorted (l : List Row) :
    (sortBySimilarityDesc l).Pairwise fun a b => simKey b ≤ simKey a := by
  have h := @List.sorted_mergeSort Row (fun a b : Row => decide (simKey b ≤ simKey a))
    rowLE_trans rowLE_total l
  simpa [sortBySimilarityDesc] using h

theorem sortBySimilarityDesc_perm (l : List Row) :
    (sortBySimilarityDesc l).Perm l :=
  List.mergeSort_perm l _

theorem mem_sortBySimilarityDesc {x : Row} {l : List Row} :
    x ∈ sortBySimilarityDesc l ↔ x ∈ l :=
  List.mem_mergeSort

theorem sortBySimilarityDesc_filter_key (l : List Row) (v : Rat) :
    (sortBySimilarityDesc l).filter (fun r => decide (simKey r = v)) =
      l.filter (fun r => decide (simKey r = v)) := by
  set p : Row → Bool := fun r => decide (simKey r = v) with hp
  have hmemp : ∀ r ∈ l.filter p, simKey r = v := by
    intro r hr
    have := (List.mem_filter.mp hr).2
    simpa [hp] using this
  have hpw : (l.filter p).Pairwise fun a b => decide (simKey b ≤ simKey a) = true := by
    refine List.pairwise_of_forall_mem_list ?_
    intro a ha b hb
    simp [hmemp a ha, hmemp b hb]
  have hsub : (l.filter p).Sublist (l.mergeSort fun a b => decide (simKey b ≤ simKey a)) :=
    List.sublist_mergeSort rowLE_trans rowLE_total hpw (List.filter_sublist l)
  have hsub2 : ((l.filter p).filter p).Sublist
      ((l.mergeSort fun a b => decide (simKey b ≤ simKey a)).filter p) :=
    List.Sublist.filter p hsub
  rw [List.filter_filter] at hsub2
  have hsimp : (l.filter fun a => p a && p a) = l.filter p := by
    simp
  rw [hsimp] at hsub2
  have hlen : ((l.mergeSort fun a b => decide (simKey b ≤ simKey a)).filter p).length =
      (l.filter p).length :=
    ((List.mergeSort_perm l _).filter p).length_eq
  exact (List.Sublist.eq_of_length hsub2 (hlen.symm)).symm

/-! Claim theorems. -/

/-- C1, counterexample: the claim says an empty query (resp. empty
content) is rejected with a validation error before any call to the
embedding provider, with no side effect.  In the code there is no such
check: a search with the empty query issues the embedding request, with
the empty string as input, as its very first external call, and
completes normally when the provider and the store answer; an add with
empty content likewise issues the embedding request first, and the
failure it then reports is the `TypeError` raised by awaiting the
synchronous client's response — not a validation error. -/
theorem C1_counterexample :
    ((search_documents ⟨"m0", "documents", 7⟩ "" 7 (.ok [1]) (.ok [])).1.head? =
        some (.embed "m0" "")) ∧
    ((search_documents ⟨"m0", "documents", 7⟩ "" 7 (.ok [1]) (.ok [])).2 = .ok []) ∧
    ((add_note "" none (.ok [1])).1.head? =
        some (.embed "text-embedding-3-small" "")) ∧
    ((add_note "" none (.ok [1])).2 =
        .error "TypeError: object CreateEmbeddingResponse can't be used in 'await' expression") := by
  refine ⟨rfl, ?_, rfl, rfl⟩
  simp [search_documents, searchRows, sortBySimilarityDesc]

/-- C1, amended: neither `search_documents` nor `add_note` validates its
text argument.  For every query (the empty string included) and every
content (the empty string included), the first external request is the
embedding-provider call carrying that text verbatim; no validation
error precedes it. -/
theorem C1_no_empty_input_validation :
    (∀ (cfg : Config) (query : String) (limit : Int)
        (embedResp : Except String (List Rat)) (storeResp : Except String (List Row)),
      (search_documents cfg query limit embedResp storeResp).1.head? =
        some (.embed cfg.openaiModel query)) ∧
    (∀ (content : String) (metadata : Option Dict)
        (embedResp : Except String (List Rat)),
      (add_note content metadata embedResp).1.head? =
        some (.embed "text-embedding-3-small" content)) := by
  constructor
  · intro cfg query limit embedResp storeResp
    cases embedResp <;> cases storeResp <;> rfl
  · intro content metadata embedResp
    cases embedResp <;> rfl

/-- C2: every candidate's reported similarity is computed by the two-step
path `distance = 1 - raw`, `similarity = 1 - distance / 2`, i.e. equals
`1 - ((1 - raw) / 2)` with `raw` the store's value (default 0); the value
returned by search is exactly the processed, sorted candidate list; and
at `raw = 0.8 = 4/5` the reported similarity is `0.9 = 9/10`. -/
theorem C2_similarity_rescale :
    (∀ doc : Row,
      (processRow doc).similarity = some (1 - ((1 - doc.similarity.getD 0) / 2))) ∧
    (∀ (cfg : Config) (query : String) (limit : Int) (emb : List Rat) (rows : List Row),
      (search_documents cfg query limit (.ok emb) (.ok rows)).2 =
        .ok ((sortBySimilarityDesc (rows.map processRow)).map Document.from_supabase)) ∧
    (processRow { id := 0, content := "", embedding := .absent, metadata := none,
                  similarity := some (4/5) }).similarity = some (9/10) := by
  refine ⟨fun doc => rfl, fun cfg query limit emb rows => rfl, ?_⟩
  simp only [processRow, Option.getD_some]
  norm_num

/-- C3: the candidate sequence search produces is sorted by similarity in
descending order (every earlier element's key is at least every later
element's key), and candidates with equal similarity keep the relative
order in which the store returned them (filtering the sorted list at any
similarity value gives the same list as filtering the processed rows in
store order). -/
theorem C3_sorted_descending_stable_ties (rows : List Row) (v : Rat) :
    ((searchRows rows).Pairwise fun a b => simKey b ≤ simKey a) ∧
    (searchRows rows).filter (fun r => decide (simKey r = v)) =
      (rows.map processRow).filter (fun r => decide (simKey r = v)) :=
  ⟨sortBySimilarityDesc_sorted _, sortBySimilarityDesc_filter_key _ v⟩

/-- C6: delete normalizes the identifier to its textual form and issues
the delete against the configured table; it returns `true` exactly when
the store reports at least one removed row, and a no-match yields the
normal result `false`, not an exception. -/
theorem C6_delete_contract (cfg : Config) (note_id : NoteId) (rows : List DeletedRow) :
    (delete_note cfg note_id (.ok rows)).1 =
      [.delete cfg.documentsTable note_id.toText] ∧
    ((delete_note cfg note_id (.ok rows)).2 = .ok true ↔ rows ≠ []) ∧
    (delete_note cfg note_id (.ok [])).2 = .ok false := by
  refine ⟨rfl, ?_, rfl⟩
  cases rows <;> simp [delete_note]

/-- C7, code bug: the claim restates the insert-handling contract of
lines 244–247, but that code is unreachable — for every input whose
provider call succeeds, add's request trace stops at the embedding
request, no `.insert` action is ever issued (so no insert outcome is
ever observed), and the result is the `TypeError` raised at line 204,
not the inserted document nor a propagated insert error. -/
theorem C7_add_never_reaches_insert (content : String) (metadata : Option Dict)
    (emb : List Rat) :
    (add_note content metadata (.ok emb)).1 =
      [.embed "text-embedding-3-small" content] ∧
    (∀ (t c : String) (e : List Rat) (m : Dict),
      Action.insert t c e m ∉ (add_note content metadata (.ok emb)).1) ∧
    (add_note content metadata (.ok emb)).2 =
      .error "TypeError: object CreateEmbeddingResponse can't be used in 'await' expression" := by
  refine ⟨rfl, ?_, rfl⟩
  intro t c e m hmem
  simp only [add_note, List.mem_singleton] at hmem
  exact Action.noConfusion hmem

/-- C4: a store row whose embedding field is the string "[0.1,0.2,0.3]"
converts to a Document with the float sequence [0.1, 0.2, 0.3]; a row
whose embedding string fails to parse as comma-separated floats yields a
Document with a null embedding and no exception — in particular
"not-a-vector" does not parse — and a search over any rows always
returns a result list rather than aborting. -/
theorem C4_embedding_parse_fallback :
    (∀ row : Row, row.embedding = .str "[0.1,0.2,0.3]" →
      (Document.from_supabase row).embedding = some [1/10, 1/5, 3/10]) ∧
    (∀ (row : Row) (s : String), row.embedding = .str s → parseEmbedding s = none →
      (Document.from_supabase row).embedding = none) ∧
    parseEmbedding "not-a-vector" = none ∧
    (∀ (cfg : Config) (query : String) (limit : Int) (emb : List Rat) (rows : List Row),
      ∃ docs, (search_documents cfg query limit (.ok emb) (.ok rows)).2 = .ok docs) := by
  have hgood : parseEmbedding "[0.1,0.2,0.3]" = some [1/10, 1/5, 3/10] := by
    simp [parseEmbedding, parseAll, pyFloat, stripChars, isBracketChar, splitOnChar, digitsVal]
    norm_num
  have hbad : parseEmbedding "not-a-vector" = none := by
    simp [parseEmbedding, parseAll, pyFloat, stripChars, isBracketChar, splitOnChar, digitsVal]
  refine ⟨?_, ?_, hbad, fun cfg query limit emb rows => ⟨_, rfl⟩⟩
  · intro row h
    simp [Document.from_supabase, h, hgood]
  · intro row s h hp
    simp [Document.from_supabase, h, hp]

/-- C4 witness: the two conversions evaluated on concrete rows. -/
theorem C4_embedding_parse_fallback_witness :
    (Document.from_supabase { id := 7, content := "c", embedding := .str "[0.1,0.2,0.3]",
                              metadata := none, similarity := none }).embedding =
      some [1/10, 1/5, 3/10] ∧
    (Document.from_supabase { id := 8, content := "c", embedding := .str "not-a-vector",
                              metadata := none, similarity := none }).embedding = none :=
  ⟨C4_embedding_parse_fallback.1 _ rfl,
   C4_embedding_parse_fallback.2.1 _ "not-a-vector" rfl C4_embedding_parse_fallback.2.2.1⟩

/-- C5, code bug: the claim describes exactly what the metadata
synthesis and merge of lines 211–235 build — the generated uuid
`file_id`, `source` "from_chat", `blobType` "text", `content_length`
equal to the content's length, `file_hash` the SHA-256 hex digest, and
the caller-wins shallow merge — but that code is unreachable: for every
input whose provider call succeeds, add returns the `TypeError` raised
at line 204 and never a result.  The first conjunct evaluates the
operation as written; the rest specify the unreachable synthesis. -/
theorem C5_add_raises_before_metadata (w : World) (content : String)
    (hc : content ≠ "") (caller : Dict) (hnd : (caller.map Prod.fst).Nodup) :
    (∀ emb : List Rat, (add_note content none (.ok emb)).2 =
      .error "TypeError: object CreateEmbeddingResponse can't be used in 'await' expression") ∧
    ((mergedMetadata w content none).get "file_id" = some (.str w.uuid4) ∧
     (mergedMetadata w content none).get "source" = some (.str "from_chat") ∧
     (mergedMetadata w content none).get "blobType" = some (.str "text") ∧
     (mergedMetadata w content none).get "content_length" = some (.int content.length) ∧
     (mergedMetadata w content none).get "file_hash" = some (.str (w.sha256hex content))) ∧
    (∀ (k : String) (v : Value), caller.get k = some v →
      (mergedMetadata w content (some caller)).get k = some v) ∧
    (∀ k : String, caller.get k = none →
      (mergedMetadata w content (some caller)).get k = (mergedMetadata w content none).get k) := by
  refine ⟨fun emb => rfl, ⟨rfl, rfl, rfl, rfl, rfl⟩, ?_, ?_⟩
  · intro k v hv
    cases caller with
    | nil => simp [Dict.get] at hv
    | cons p rest =>
      exact Dict.get_update_of_get_eq_some _ _ _ _ hnd hv
  · intro k hk
    cases caller with
    | nil => rfl
    | cons p rest =>
      exact Dict.get_update_of_get_eq_none _ _ _ hk

/-- C5 witness: a concrete add with a successful provider response ends
in the `TypeError`; and the (unreachable) merge, evaluated concretely,
lets the caller override `source` while the generated `file_id` default
survives. -/
theorem C5_add_raises_before_metadata_witness :
    (add_note "abc" none (.ok [1])).2 =
      .error "TypeError: object CreateEmbeddingResponse can't be used in 'await' expression" ∧
    (mergedMetadata ⟨fun s => s, "uid-1", "t1", "t2", "t3"⟩ "abc"
        (some [("source", Value.str "test")])).get "source" = some (.str "test") ∧
    (mergedMetadata ⟨fun s => s, "uid-1", "t1", "t2", "t3"⟩ "abc"
        (some [("source", Value.str "test")])).get "file_id" = some (.str "uid-1") := by
  have h := C5_add_raises_before_metadata ⟨fun s => s, "uid-1", "t1", "t2", "t3"⟩ "abc"
    (by decide) [("source", Value.str "test")] (by decide)
  refine ⟨h.1 [1], h.2.2.1 "source" (Value.str "test") rfl, ?_⟩
  have h2 := h.2.2.2 "file_id" rfl
  rw [h2]
  rfl

/-- C8, counterexample: the claim says every result search returns
carries a similarity score in [-1, 1].  The pydantic `Document` model
(lines 114–118) has no similarity field and drops the extra key on
conversion, so the value search returns carries no score at all: at a
concrete input with raw similarity 0.8 the entire returned value is a
record with only id, content, embedding and metadata, and converting
the processed row (score 0.9) gives the same `Document` as a row with
no similarity at all — the score is erased from the return. -/
theorem C8_counterexample :
    (search_documents ⟨"m0", "documents", 7⟩ "q" 7 (.ok [1])
        (.ok [{ id := 5, content := "c", embedding := .absent, metadata := none,
                similarity := some (4/5) }])).2 =
      .ok [{ id := 5, content := "c", embedding := none, metadata := none }] ∧
    Document.from_supabase
        (processRow { id := 5, content := "c", embedding := .absent, metadata := none,
                      similarity := some (4/5) }) =
      Document.from_supabase
        { id := 5, content := "c", embedding := .absent, metadata := none,
          similarity := none } := by
  refine ⟨?_, rfl⟩
  simp [search_documents, searchRows, sortBySimilarityDesc]
  rfl

/-- C8, amended: when every raw similarity the store returns lies in
[-1, 1], every row of the processed candidate list search builds and
sorts carries a similarity score in [-1, 1]; the returned value is that
list converted to `Document`s, and the conversion discards the
similarity field (the converted row is independent of it), so the
returned results themselves carry no score. -/
theorem C8_similarity_internal_only (rows : List Row)
    (h : ∀ doc ∈ rows, ∀ r : Rat, doc.similarity = some r → -1 ≤ r ∧ r ≤ 1) :
    (∀ res ∈ searchRows rows, ∃ s : Rat, res.similarity = some s ∧ -1 ≤ s ∧ s ≤ 1) ∧
    (∀ (cfg : Config) (query : String) (limit : Int) (emb : List Rat),
      (search_documents cfg query limit (.ok emb) (.ok rows)).2 =
        .ok ((searchRows rows).map Document.from_supabase)) ∧
    (∀ (doc : Row) (s : Option Rat),
      Document.from_supabase { doc with similarity := s } =
        Document.from_supabase doc) := by
  refine ⟨?_, fun cfg query limit emb => rfl, fun doc s => rfl⟩
  intro res hres
  obtain ⟨doc, hdoc, rfl⟩ := List.mem_map.mp (mem_sortBySimilarityDesc.mp hres)
  have hraw : -1 ≤ doc.similarity.getD 0 ∧ doc.similarity.getD 0 ≤ 1 := by
    cases hsim : doc.similarity with
    | none => norm_num
    | some r =>
      have hr := h doc hdoc r hsim
      simpa using hr
  exact ⟨1 - ((1 - doc.similarity.getD 0) / 2), rfl,
    by linarith [hraw.1, hraw.2], by linarith [hraw.1, hraw.2]⟩

/-- C8 witness: a store answer with raw similarity 0.8 gives an internal
score inside [-1, 1], and the conversion to the returned `Document`
erases the score. -/
theorem C8_similarity_internal_only_witness :
    (∃ s : Rat,
      (processRow { id := 1, content := "a", embedding := .absent, metadata := none,
                    similarity := some (4/5) }).similarity = some s ∧ -1 ≤ s ∧ s ≤ 1) ∧
    Document.from_supabase
        { id := 1, content := "a", embedding := .absent, metadata := none,
          similarity := some (9/10) } =
      Document.from_supabase
        { id := 1, content := "a", embedding := .absent, metadata := none,
          similarity := none } := by
  have h := C8_similarity_internal_only
    [{ id := 1, content := "a", embedding := .absent, metadata := none,
       similarity := some (4/5) }]
    (by
      intro doc hdoc r hr
      simp only [List.mem_singleton] at hdoc
      subst hdoc
      obtain rfl : (4/5 : Rat) = r := Option.some.inj hr
      norm_num)
  refine ⟨h.1 _ (by simp [searchRows, sortBySimilarityDesc]), ?_⟩
  exact h.2.2 { id := 1, content := "a", embedding := .absent, metadata := none,
                similarity := none } (some (9/10))

/-- C9, counterexample: the claim says that for every input add inserts
into the literal table "notes".  At a concrete input with a successful
provider response, add's entire request trace is the single embedding
request — no insert into any table is issued (the `TypeError` at line
204 aborts add before the insert of line 238) — while delete's trace
targets the configured table. -/
theorem C9_counterexample :
    (add_note "c" none (.ok [1])).1 = [.embed "text-embedding-3-small" "c"] ∧
    (delete_note ⟨"m0", "documents", 7⟩ (.int 638) (.ok [])).1 =
      [.delete "documents" "638"] :=
  ⟨rfl, rfl⟩

/-- C9, amended: add requests embeddings from the literal model
"text-embedding-3-small" independently of the configured OPENAI_MODEL,
but inserts into no table at all: its trace never contains an insert
action, because the `TypeError` at line 204 aborts it before the insert
of line 238 (whose source text targets the literal "notes").  Search
embeds with the configured model and delete targets the configured
DOCUMENTS_TABLE; hence add and delete never operate on the same table —
add operates on none. -/
theorem C9_hardcoded_model_add_inserts_nothing (cfg : Config) (content : String)
    (metadata : Option Dict) (embedResp : Except String (List Rat))
    (query : String) (limit : Int) (store : Except String (List Row))
    (note_id : NoteId) (dresp : Except String (List DeletedRow)) :
    (add_note content metadata embedResp).1 =
      [.embed "text-embedding-3-small" content] ∧
    (∀ (t c : String) (e : List Rat) (m : Dict),
      Action.insert t c e m ∉ (add_note content metadata embedResp).1) ∧
    (search_documents cfg query limit embedResp store).1.head? =
      some (.embed cfg.openaiModel query) ∧
    (delete_note cfg note_id dresp).1 =
      [.delete cfg.documentsTable note_id.toText] := by
  have htr : (add_note content metadata embedResp).1 =
      [.embed "text-embedding-3-small" content] := by
    cases embedResp <;> rfl
  refine ⟨htr, ?_, ?_, rfl⟩
  · intro t c e m hmem
    rw [htr] at hmem
    simp only [List.mem_singleton] at hmem
    exact Action.noConfusion hmem
  · cases embedResp <;> cases store <;> rfl

/-- C10: a candidate row lacking a similarity field gets raw similarity
0, hence a reported similarity of exactly 0.5, and still appears among
the processed, sorted candidates. -/
theorem C10_missing_similarity_default (rows : List Row) (doc : Row)
    (hmem : doc ∈ rows) (hsim : doc.similarity = none) :
    (processRow doc).similarity = some (1/2) ∧ processRow doc ∈ searchRows rows := by
  constructor
  · have hval : (processRow doc).similarity =
        some (1 - ((1 - doc.similarity.getD 0) / 2)) := rfl
    rw [hval, hsim]
    simp only [Option.getD_none]
    norm_num
  · exact mem_sortBySimilarityDesc.mpr (List.mem_map_of_mem processRow hmem)

/-- C10 witness: a concrete row without a similarity field is reported
at 0.5 and kept in the result set. -/
theorem C10_missing_similarity_default_witness :
    (processRow { id := 3, content := "c", embedding := .absent, metadata := none,
                  similarity := none }).similarity = some (1/2) ∧
    processRow { id := 3, content := "c", embedding := .absent, metadata := none,
                 similarity := none } ∈
      searchRows [{ id := 3, content := "c", embedding := .absent, metadata := none,
                    similarity := none }] :=
  C10_missing_similarity_default _ _ (List.mem_singleton.mpr rfl) rfl

end RagServer

